import Mathlib

/-!
Verification development for the Home-Facelift-Copilot repository.

The Python source (src/app/tools.py, src/app/memory_store.py) is shallowly
embedded: strings are `List Char` (so that every operation is structural and
kernel-computable), external model calls are oracle parameters (a call that can
raise is an `Except (List Char) α` input whose `.error` payload is the string
of the raised exception), and the mutable session state / memory store are
explicit records threaded through the functions.
-/

/-! ## Generic association-list machinery

Python `dict` values are embedded as association lists with unique keys in
insertion order; `alGet` is `d[k]` / `d.get(k)` (first match), `alSet` is
`d[k] = v` (replace in place, else append), `dictUpdate` is `d.update(x)`.
-/

def alGet {κ ν : Type} [DecidableEq κ] : List (κ × ν) → κ → Option ν
  | [], _ => none
  | p :: rest, k => if p.1 = k then some p.2 else alGet rest k

def alHas {κ ν : Type} [DecidableEq κ] (l : List (κ × ν)) (k : κ) : Bool :=
  l.any (fun p => decide (p.1 = k))

def alSet {κ ν : Type} [DecidableEq κ] (l : List (κ × ν)) (k : κ) (v : ν) : List (κ × ν) :=
  if alHas l k then l.map (fun p => if p.1 = k then (k, v) else p) else l ++ [(k, v)]

def dictUpdate {κ ν : Type} [DecidableEq κ] (d x : List (κ × ν)) : List (κ × ν) :=
  x.foldl (fun acc p => alSet acc p.1 p.2) d

/-! ## Character-list string helpers -/

/-- `trimL` is Python `str.strip()` on the embedded string (whitespace at both
ends removed; Python additionally strips `\x0b`/`\x0c`/unicode spaces, which do
not occur in the strings this development manipulates). -/
def trimL (l : List Char) : List Char :=
  ((l.dropWhile Char.isWhitespace).reverse.dropWhile Char.isWhitespace).reverse

/-- First occurrence of `sep` in a list: `some (before, after)` where `after`
is everything past the first occurrence, `none` when `sep` does not occur. -/
def breakOn (sep : List Char) : List Char → Option (List Char × List Char)
  | [] => none
  | c :: rest =>
    if sep.isPrefixOf (c :: rest) then some ([], (c :: rest).drop sep.length)
    else
      match breakOn sep rest with
      | some (pre, post) => some (c :: pre, post)
      | none => none

/-- `occurs pat l` is Python `pat in l` for strings. -/
def occurs (pat l : List Char) : Bool := (breakOn pat l).isSome

/-! ## Consistency Verifier (`_consistency_check`, src/app/tools.py 126-178)

The judge model call (lines 156-161) is the `response` input: `.ok raw` with
the response text when `client.models.generate_content(...).text.strip()`
returns, `.error e` with `str(exception)` when anything up to it raises.
`json.loads` together with the subsequent requirement that the decoded value is
a dict (`result.get` raises `AttributeError` otherwise) is the `parseObj`
input; its `.error` payload is again the exception's string.  Everything else
in the function is embedded directly.
-/

/-- JSON value as produced by `json.loads` (scores are instructed to be
integers; numeric values are embedded as `Int`). -/
inductive JVal where
  | null : JVal
  | bool : Bool → JVal
  | num : Int → JVal
  | str : List Char → JVal
  | arr : List JVal → JVal
  | obj : List (List Char × JVal) → JVal
  deriving Repr

/-- The dict returned by `_consistency_check` (keys `passed`, `score`,
`issues`); each field holds whatever JSON value the code put there. -/
structure ConsistencyReport where
  passed : JVal
  score : JVal
  issues : JVal

/-- Lines 161-167: strip a surrounding ``` code fence from the response text
(`text.split("```")[1]`, drop a leading `json`, strip). -/
def consistencyExtract (raw : List Char) : List Char :=
  let text := trimL raw
  if occurs ("```".data) text then
    let t2 :=
      match breakOn ("```".data) text with
      | some pr =>
        match breakOn ("```".data) pr.2 with
        | some pr2 => pr2.1
        | none => pr.2
      | none => text
    let t3 := if ("json".data).isPrefixOf t2 then t2.drop 4 else t2
    trimL t3
  else text

/-- `_consistency_check` after the images are loaded (the `try` block of lines
155-178): build the report dict from the parsed JSON with per-field defaults,
or fail open on any exception. -/
def consistency_check (response : Except (List Char) (List Char))
    (parseObj : List Char → Except (List Char) (List (List Char × JVal))) :
    ConsistencyReport :=
  match response with
  | .error e =>
    { passed := JVal.bool true, score := JVal.num (-1),
      issues := JVal.arr [JVal.str (("Check error: ".data) ++ e)] }
  | .ok raw =>
    match parseObj (consistencyExtract raw) with
    | .error e =>
      { passed := JVal.bool true, score := JVal.num (-1),
        issues := JVal.arr [JVal.str (("Check error: ".data) ++ e)] }
    | .ok result =>
      { passed := (alGet result ("passed".data)).getD (JVal.bool false),
        score := (alGet result ("score".data)).getD (JVal.num 0),
        issues := (alGet result ("issues".data)).getD (JVal.arr []) }

/-- The report shape demanded by the specification (section 8, property 5):
`passed = true` forces empty `issues`, and the score is an integer in 0-100 or
the judge-failure sentinel -1. -/
def specReportShape (r : ConsistencyReport) : Prop :=
  (r.passed = JVal.bool true → r.issues = JVal.arr []) ∧
  (∃ n : Int, r.score = JVal.num n ∧ ((0 ≤ n ∧ n ≤ 100) ∨ n = -1))

/-- Claim C2: whenever the judgment call inside `_consistency_check` raises
(model unavailable before a response, or the response fails to parse as a JSON
dict), the exception is not propagated and the returned report is exactly
`passed = true`, `score = -1`, `issues = ["Check error: <e>"]`. -/
theorem consistency_check_fail_open (e raw : List Char)
    (parseObj : List Char → Except (List Char) (List (List Char × JVal))) :
    consistency_check (Except.error e) parseObj =
      { passed := JVal.bool true, score := JVal.num (-1),
        issues := JVal.arr [JVal.str (("Check error: ".data) ++ e)] } ∧
    (parseObj (consistencyExtract raw) = Except.error e →
      consistency_check (Except.ok raw) parseObj =
        { passed := JVal.bool true, score := JVal.num (-1),
          issues := JVal.arr [JVal.str (("Check error: ".data) ++ e)] }) := by
  refine ⟨rfl, fun h => ?_⟩
  simp only [consistency_check, h]

/-- Witness for C2 at a concrete failing judge call. -/
theorem consistency_check_fail_open_witness :
    consistency_check (Except.error ("model unavailable".data))
        (fun _ => Except.error []) =
      { passed := JVal.bool true, score := JVal.num (-1),
        issues :=
          JVal.arr [JVal.str (("Check error: ".data) ++ "model unavailable".data)] } ∧
    consistency_check (Except.ok []) (fun _ => Except.error ("model unavailable".data)) =
      { passed := JVal.bool true, score := JVal.num (-1),
        issues :=
          JVal.arr [JVal.str (("Check error: ".data) ++ "model unavailable".data)] } :=
  ⟨(consistency_check_fail_open ("model unavailable".data) []
      (fun _ => Except.error [])).1,
   (consistency_check_fail_open ("model unavailable".data) []
      (fun _ => Except.error ("model unavailable".data))).2 rfl⟩

/-- Claim C3, counterexample: the fail-open report itself violates the claimed
shape invariant — it has `passed = true` together with a non-empty `issues`
list, so `passed = true → issues = []` fails on a value actually returned by
`_consistency_check` (here: the judge call raised "judge down"). -/
theorem consistency_report_shape_counterexample :
    ¬ specReportShape
        (consistency_check (Except.error ("judge down".data)) (fun _ => Except.error [])) := by
  intro h
  have h2 := h.1 rfl
  simp only [consistency_check, JVal.arr.injEq] at h2
  exact absurd h2 (by simp)

/-- Claim C3 (amended): the shape invariant holds for every report built from a
successfully parsed judge response whose own fields respect the instructed
format (`passed = true` only with empty `issues`; integer score 0-100); the
fail-open path instead returns `passed = true` with sentinel score -1 and one
issue describing the failure, so its `passed` does not come with empty
`issues`.  The success path copies the judge's fields without validation. -/
theorem consistency_report_shape_amended (raw : List Char)
    (parseObj : List Char → Except (List Char) (List (List Char × JVal)))
    (fields : List (List Char × JVal))
    (hp : parseObj (consistencyExtract raw) = Except.ok fields)
    (hpass : (alGet fields ("passed".data)).getD (JVal.bool false) = JVal.bool true →
      (alGet fields ("issues".data)).getD (JVal.arr []) = JVal.arr [])
    (hscore : ∃ n : Int,
      (alGet fields ("score".data)).getD (JVal.num 0) = JVal.num n ∧ 0 ≤ n ∧ n ≤ 100) :
    specReportShape (consistency_check (Except.ok raw) parseObj) ∧
    (∀ e parse2, (consistency_check (Except.error e) parse2).passed = JVal.bool true ∧
      (consistency_check (Except.error e) parse2).score = JVal.num (-1)) := by
  constructor
  · obtain ⟨n, hn, hn0, hn100⟩ := hscore
    refine ⟨?_, ⟨n, ?_, Or.inl ⟨hn0, hn100⟩⟩⟩
    · intro hpt
      simp only [consistency_check, hp] at hpt ⊢
      exact hpass hpt
    · simp only [consistency_check, hp]
      exact hn
  · intro e parse2
    exact ⟨rfl, rfl⟩

/-- Witness for the amended C3 at a concrete compliant judge response. -/
theorem consistency_report_shape_amended_witness :
    specReportShape (consistency_check (Except.ok [])
      (fun _ => Except.ok [("passed".data, JVal.bool true),
                           ("score".data, JVal.num 93),
                           ("issues".data, JVal.arr [])])) ∧
    (∀ e parse2, (consistency_check (Except.error e) parse2).passed = JVal.bool true ∧
      (consistency_check (Except.error e) parse2).score = JVal.num (-1)) :=
  consistency_report_shape_amended []
    (fun _ => Except.ok [("passed".data, JVal.bool true),
                         ("score".data, JVal.num 93),
                         ("issues".data, JVal.arr [])])
    [("passed".data, JVal.bool true), ("score".data, JVal.num 93),
     ("issues".data, JVal.arr [])]
    rfl (fun _ => rfl) ⟨93, rfl, by decide, by decide⟩

/-- Claim C10: when the judge response parses as a JSON dict but omits fields,
`_consistency_check` substitutes defaults — missing `passed` yields `false`,
missing `score` yields `0`, missing `issues` yields `[]` — so a
parseable-but-incomplete response produces the failing report
`{passed = false, score = 0, issues = []}` rather than the fail-open
sentinel. -/
theorem consistency_check_defaults (raw : List Char)
    (parseObj : List Char → Except (List Char) (List (List Char × JVal)))
    (fields : List (List Char × JVal))
    (hp : parseObj (consistencyExtract raw) = Except.ok fields) :
    (alGet fields ("passed".data) = none →
      (consistency_check (Except.ok raw) parseObj).passed = JVal.bool false) ∧
    (alGet fields ("score".data) = none →
      (consistency_check (Except.ok raw) parseObj).score = JVal.num 0) ∧
    (alGet fields ("issues".data) = none →
      (consistency_check (Except.ok raw) parseObj).issues = JVal.arr []) ∧
    (alGet fields ("passed".data) = none ∧ alGet fields ("score".data) = none ∧
      alGet fields ("issues".data) = none →
      consistency_check (Except.ok raw) parseObj =
        { passed := JVal.bool false, score := JVal.num 0, issues := JVal.arr [] }) := by
  refine ⟨fun h => ?_, fun h => ?_, fun h => ?_, fun ⟨h1, h2, h3⟩ => ?_⟩ <;>
    simp only [consistency_check, hp]
  · simp [h]
  · simp [h]
  · simp [h]
  · simp [h1, h2, h3]

/-- Witness for C10: an empty-but-valid JSON object from the judge. -/
theorem consistency_check_defaults_witness :
    consistency_check (Except.ok []) (fun _ => Except.ok []) =
      { passed := JVal.bool false, score := JVal.num 0, issues := JVal.arr [] } :=
  (consistency_check_defaults [] (fun _ => Except.ok []) [] rfl).2.2.2
    ⟨rfl, rfl, rfl⟩

/-! ## Edit-Instruction Compiler
(`CONSISTENCY_RULES`, `_ai_create_image_prompts`, `_ai_create_refined_image_prompt`,
src/app/tools.py 428-569)

`_ai_create_image_prompts` first asks the model for the bulk text; the claims
are about the processing of that text (lines 509-537), so the response text is
the `text` input here.  The regex steps are embedded as direct scanning
functions matching Python `re` semantics (leftmost match, greedy `\s*`, lazy
captures, `.` not crossing newlines for the split lookahead).
-/

/-- `CONSISTENCY_RULES` (src/app/tools.py 428-455), joined from the same
adjacent string literals as the Python source. -/
def CONSISTENCY_RULES : List Char :=
  ("REGLAS CRÍTICAS — LEE TODAS ANTES DE EDITAR:\n\n"
    ++ "ESTO ES UN LAVADO DE CARA (facelift). SOLO se cambian COLORES y ACABADOS.\n"
    ++ "REGLA DE ORO: Si algo YA está bien (suelo, parquet, techo blanco) → NO TOCARLO.\n"
    ++ "El suelo/parquet en buen estado DEBE aparecer IDÉNTICO en la imagen generada.\n"
    ++ "Techo y paredes en buen estado → MANTENER color y acabado exacto.\n\n"
    ++ "1. UNIFORMIDAD ENTRE PLANTAS: El MISMO tratamiento y color se aplica a TODAS "
    ++ "las plantas de la fachada. Planta baja y planta alta IDÉNTICAS en color.\n"
    ++ "2. PRESERVAR TEXTURAS: La piedra natural mantiene su RELIEVE y TEXTURA original. "
    ++ "Solo se cambia el COLOR pintando sobre ella. NO alisar, NO quitar, NO reemplazar piedras.\n"
    ++ "3. PRESERVAR GEOMETRÍA: NO mover, eliminar, añadir ni modificar la FORMA de "
    ++ "ningún elemento (muros, ventanas, puertas, tejado, piscina, edificios).\n"
    ++ "4. PISCINA: Mantener SIEMPRE visible, en su posición y forma exacta.\n"
    ++ "5. ÁRBOLES y VEGETACIÓN: Mantener en su posición exacta.\n"
    ++ "6. Elementos NO mencionados como CAMBIAR → quedar EXACTAMENTE como en la original.\n"
    ++ "7. Aplicar los colores RAL especificados con PRECISIÓN en TODA la superficie indicada.\n"
    ++ "8. La perspectiva, proporciones y composición deben ser EXACTAS a la foto original.\n"
    ++ "9. Generar una imagen FOTORREALISTA de ALTA CALIDAD.\n"
    ++ "10. TEJAS: Si se especifica un color, aplicar a TODAS las tejas por igual.\n\n"
    ++ "CAMBIOS PROHIBIDOS:\n"
    ++ "- NO cambiar la forma de ventanas, puertas o tejado\n"
    ++ "- NO eliminar ni mover piedras — solo PINTARLAS conservando su textura\n"
    ++ "- NO cambiar la forma de la piscina ni sus bordes\n"
    ++ "- NO añadir elementos arquitectónicos nuevos (balcones, terrazas, etc.)\n"
    ++ "- NO modificar la vegetación existente\n"
    ++ "- NO cambiar el paisaje de fondo\n"
    ++ "- NO aplicar tratamientos diferentes entre planta baja y planta alta").data

/-- Candidate split points for the greedy `\s*\n` after a `===PROMPT_i===`
marker: indices of a newline inside the maximal whitespace prefix, longest
first (the regex backtracks from the longest whitespace run). -/
def newlineSplits (ws : List Char) : List Nat :=
  ((List.range ws.length).filter (fun i => ws.get? i = some '\n')).reverse

/-- Match `\s*\n(.*?)\n===FIN_i===` (DOTALL) right after the start marker: the
lazy capture ends at the first occurrence of the FIN marker. -/
def tryWsSplits (after fin : List Char) : Option (List Char) :=
  let ws := after.takeWhile Char.isWhitespace
  (newlineSplits ws).findSome? fun p =>
    (breakOn fin (after.drop (p + 1))).map (fun pr => pr.1)

/-- `re.search` of `===PROMPT_i===\s*\n(.*?)\n===FIN_i===`: try occurrences of
the start marker left to right; fuel bounds the recursion (each step drops at
least the marker, so `text.length + 1` fuel is never exhausted). -/
def searchPromptAux (startM fin : List Char) : Nat → List Char → Option (List Char)
  | 0, _ => none
  | Nat.succ fuel, cs =>
    match breakOn startM cs with
    | none => none
    | some (_, after) =>
      match tryWsSplits after fin with
      | some cap => some cap
      | none => searchPromptAux startM fin fuel after

def searchPrompt (text : List Char) (i : Nat) : Option (List Char) :=
  searchPromptAux (("===PROMPT_" ++ Nat.repr i ++ "===").data)
    (("\n===FIN_" ++ Nat.repr i ++ "===").data) (text.length + 1) text

/-- Lines 512-517: collect `match.group(1).strip()` for `i` in
`range(1, count + 1)`. -/
def delimPrompts (text : List Char) (count : Nat) : List (List Char) :=
  ((List.range count).map (fun i => i + 1)).filterMap
    (fun i => (searchPrompt text i).map trimL)

/-- Lookahead of the fallback split regex
`\n(?=(?:Prompt|PROMPT|Alternativa)\s*[ABC123])`: one of the three words, then
whitespace, then one of `A B C 1 2 3` (the first non-whitespace character after
the word, since the class characters are not whitespace). -/
def sectionLookahead (cs : List Char) : Bool :=
  let tryWord := fun (w : String) =>
    (w.data).isPrefixOf cs &&
      (match (cs.drop w.data.length).dropWhile Char.isWhitespace with
       | c :: _ => ['A', 'B', 'C', '1', '2', '3'].contains c
       | [] => false)
  tryWord "Prompt" || tryWord "PROMPT" || tryWord "Alternativa"

/-- `re.split` at every newline whose following text satisfies the lookahead
(the newline is consumed). -/
def splitSectionsAux : List Char → List Char → List (List Char)
  | [], acc => [acc.reverse]
  | c :: rest, acc =>
    if decide (c = '\n') && sectionLookahead rest then
      acc.reverse :: splitSectionsAux rest []
    else splitSectionsAux rest (c :: acc)

/-- Lines 520-526: heuristic fallback — split into sections, keep stripped
sections longer than 100 characters, first `count` of them. -/
def fallbackSections (text : List Char) (count : Nat) : List (List Char) :=
  (((splitSectionsAux text []).map trimL).filter (fun s => 100 < s.length)).take count

/-- The wrapper applied to every instruction (lines 534-537 and 569):
`"Edita esta imagen aplicando SOLO cambios de pintura y color
(facelift/lavado de cara):\n\n" + p + "\n\n" + CONSISTENCY_RULES`. -/
def wrapPrompt (p : List Char) : List Char :=
  ("Edita esta imagen aplicando SOLO cambios de pintura y color (facelift/lavado de cara):\n\n".data)
    ++ p ++ ("\n\n".data) ++ CONSISTENCY_RULES

/-- `_ai_create_image_prompts` from the model response text on (lines
509-537): delimiter extraction, heuristic section fallback, whole-text
fallback, then the consistency-rules wrapper on every prompt. -/
def ai_create_image_prompts (text : List Char) (count : Nat) : List (List Char) :=
  let prompts := delimPrompts text count
  let prompts := if prompts.length < count then fallbackSections text count else prompts
  let prompts := if prompts.length < 1 then [text] else prompts
  prompts.map wrapPrompt

/-- `_ai_create_refined_image_prompt` (lines 540-569): the model response for
the prompt built from `refined_plan` and `inventory` is `model refined_plan
inventory` (the prompt wording is configuration, spec section 1); the result is
the same wrapper around the response text. -/
def ai_create_refined_image_prompt (model : List Char → List Char → List Char)
    (refined_plan inventory : List Char) : List Char :=
  wrapPrompt (model refined_plan inventory)

/-- Claim C6: for every model output text, `_ai_create_image_prompts` never
raises (it is a total function of the text) and returns at least one
instruction; when delimiter extraction and heuristic splitting both yield
nothing, the entire raw text becomes the single instruction. -/
theorem ai_create_image_prompts_total (text : List Char) (count : Nat) :
    1 ≤ (ai_create_image_prompts text count).length ∧
    (delimPrompts text count = [] → fallbackSections text count = [] →
      ai_create_image_prompts text count = [wrapPrompt text]) := by
  constructor
  · simp only [ai_create_image_prompts, List.length_map]
    split <;> split
    · simp
    · rename_i h
      omega
    · simp
    · rename_i h
      omega
  · intro h1 h2
    by_cases hc : (delimPrompts text count).length < count
    · simp [ai_create_image_prompts, hc, h1, h2]
    · have hcount : count = 0 := by
        rw [h1] at hc
        simpa using hc
      subst hcount
      simp [ai_create_image_prompts, h1]

/-- Witness for C6: on the degenerate model output `"h"` both extraction
stages fail and the whole text is used as the single instruction. -/
theorem ai_create_image_prompts_total_witness :
    ai_create_image_prompts ("h".data) 3 = [wrapPrompt ("h".data)] :=
  (ai_create_image_prompts_total ("h".data) 3).2 (by decide) (by decide)

/-- Claim C7: every instruction produced by `_ai_create_image_prompts` and the
single instruction produced by `_ai_create_refined_image_prompt` end with the
fixed `CONSISTENCY_RULES` policy text appended verbatim, regardless of the
instruction content and of the model response. -/
theorem compiler_appends_consistency_rules :
    (∀ text count p, p ∈ ai_create_image_prompts text count →
      ∃ s, p = s ++ CONSISTENCY_RULES) ∧
    (∀ model rp inv, ∃ s,
      ai_create_refined_image_prompt model rp inv = s ++ CONSISTENCY_RULES) := by
  constructor
  · intro text count p hp
    unfold ai_create_image_prompts at hp
    rw [List.mem_map] at hp
    obtain ⟨q, -, rfl⟩ := hp
    refine ⟨("Edita esta imagen aplicando SOLO cambios de pintura y color (facelift/lavado de cara):\n\n".data)
      ++ q ++ ("\n\n".data), ?_⟩
    simp [wrapPrompt, List.append_assoc]
  · intro model rp inv
    refine ⟨("Edita esta imagen aplicando SOLO cambios de pintura y color (facelift/lavado de cara):\n\n".data)
      ++ model rp inv ++ ("\n\n".data), ?_⟩
    simp [ai_create_refined_image_prompt, wrapPrompt, List.append_assoc]

/-- Witness for C7 at concrete inputs for both compiler entry points. -/
theorem compiler_appends_consistency_rules_witness :
    (∃ s, wrapPrompt ("h".data) = s ++ CONSISTENCY_RULES) ∧
    (∃ s, ai_create_refined_image_prompt (fun a b => a ++ b) [] [] =
      s ++ CONSISTENCY_RULES) :=
  ⟨compiler_appends_consistency_rules.1 ("h".data) 3 (wrapPrompt ("h".data))
      (by rw [show ai_create_image_prompts ("h".data) 3 = [wrapPrompt ("h".data)] from rfl]
          exact List.mem_singleton.mpr rfl),
   compiler_appends_consistency_rules.2 (fun a b => a ++ b) [] []⟩

/-! ## Design Specification Engine — refine (`_ai_update_design_spec`,
src/app/tools.py 572-645)

The function builds one prompt from the inventory, the current CDS and the
user feedback, sends it to the model and returns `response.text` unmodified.
The prompt literal is transcribed below in segments; concatenated in order
they are exactly the Python f-string with `{inventory}`, `{current_cds}` and
`{user_feedback}` spliced in. -/

def upSegA : List Char :=
  ("Eres un arquitecto de diseño exterior experto.\n\n"
    ++ "INVENTARIO ORIGINAL DE ELEMENTOS:\n").data

def upSegB : List Char := "\n\nESPECIFICACIÓN DE DISEÑO ACTUAL (CDS):\n".data

def upSegC : List Char := "\n\nFEEDBACK DEL USUARIO:\n".data

def upSegD1 : List Char :=
  ("\n\nINSTRUCCIONES:\nActualiza la CDS incorporando el feedback del usuario.\n\n"
    ++ "REGLAS ESTRICTAS DE HERENCIA Y PRESERVACIÓN:\n"
    ++ "1. NO crees 3 nuevas alternativas — solo 1 CDS actualizada.\n"
    ++ "2. CADA ELEM del inventario DEBE aparecer (como CAMBIAR o MANTENER).\n"
    ++ "3. Aplica TODOS los cambios del feedback del usuario.\n").data

/-- Rule 4 of the refine prompt: the verbatim inheritance instruction. -/
def inheritRuleText : List Char :=
  ("4. Los elementos que el usuario NO mencionó → HEREDAR EXACTAMENTE el tratamiento\n"
    ++ "   de la CDS actual. NO los modifiques, NO los pierdas, NO los reinicies.").data

def upSegD2 : List Char :=
  ("\n5. La piscina SIEMPRE se mantiene.\n6. Los árboles SIEMPRE se mantienen.\n").data

/-- Rule 7 of the refine prompt: the verbatim uniformity instruction. -/
def uniformRuleText : List Char :=
  ("7. UNIFORMIDAD ENTRE PLANTAS: Si el usuario pide un cambio en una superficie,\n"
    ++ "   aplicar el MISMO cambio a TODAS las plantas (baja, alta) salvo que pida\n"
    ++ "   explícitamente lo contrario.").data

def upSegD3 : List Char :=
  ("\n8. PIEDRA: Solo PINTAR sobre ella conservando textura/relieve. NUNCA quitar ni reemplazar.\n"
    ++ "9. TEJAS: Si se cambian, deben ser de un color ACORDE al diseño general.\n"
    ++ "10. Esto es un LAVADO DE CARA: solo pintura y acabados, no cambios estructurales.\n\n"
    ++ "FORMATO DE RESPUESTA:\n\n"
    ++ "## 🏠 Propuesta Refinada: [nombre]\n\n"
    ++ "### Cambios aplicados según tu feedback:\n"
    ++ "[lista ESPECÍFICA de qué cambios incorporaste del feedback]\n\n"
    ++ "### Resumen visual:\n"
    ++ "[descripción del resultado final con colores RAL específicos para cada superficie]\n\n"
    ++ "**CDS_ACTUALIZADA:**\nCAMBIAR:\n"
    ++ "- [ELEM_XX]: [color RAL + acabado + tipo pintura específica para ese sustrato]\n"
    ++ "  Proceso: 1) [preparación] 2) [imprimación adecuada al sustrato] 3) [pintura final]\n"
    ++ "  (HEREDADO de CDS anterior / MODIFICADO según feedback)\n"
    ++ "MANTENER SIN CAMBIOS:\n"
    ++ "- [ELEM_XX]: [descripción detallada de lo que tiene actualmente]\n"
    ++ "AÑADIR:\n- [nuevos elementos si aplica]\n\n"
    ++ "### Plan de ejecución por superficie:\n"
    ++ "| Elemento | Sustrato | Preparación | Imprimación | Pintura final | Color RAL | m² | Litros |\n"
    ++ "|----------|----------|-------------|-------------|---------------|-----------|-----|--------|\n\n"
    ++ "### Herramientas necesarias:\n"
    ++ "[lista agrupada por tarea: limpieza, pintura, instalación]\n\n"
    ++ "CHECKLIST OBLIGATORIO (verifica ANTES de responder):\n"
    ++ "- ¿Aparecen TODOS los ELEM_XX del inventario en la CDS_ACTUALIZADA?\n"
    ++ "- ¿Las plantas alta y baja tienen el MISMO color y tratamiento?\n"
    ++ "- ¿La piedra conserva su textura (solo pintada, no reemplazada)?\n"
    ++ "- ¿La piscina está como MANTENER?\n"
    ++ "- ¿Los árboles están como MANTENER?\n"
    ++ "- ¿El feedback del usuario se aplicó correctamente?\n"
    ++ "- ¿Los elementos no mencionados HEREDAN el tratamiento de la CDS anterior?\n"
    ++ "- ¿Las tejas tienen un color acorde al diseño?\n").data

/-- The full prompt of `_ai_update_design_spec` (lines 577-642). -/
def updateSpecPrompt (inventory current_cds user_feedback : List Char) : List Char :=
  upSegA ++ inventory ++ upSegB ++ current_cds ++ upSegC ++ user_feedback
    ++ upSegD1 ++ inheritRuleText ++ upSegD2 ++ uniformRuleText ++ upSegD3

/-- `_ai_update_design_spec`: send the prompt, return `response.text`
unmodified (line 644-645); the model call is the `model` oracle. -/
def ai_update_design_spec (model : List Char → List Char)
    (inventory current_cds user_feedback : List Char) : List Char :=
  model (updateSpecPrompt inventory current_cds user_feedback)

/-- Python `str.splitlines`-style split at every newline (the separator is
consumed; used to read a CDS text line by line). -/
def splitLines : List Char → List (List Char)
  | [] => [[]]
  | c :: rest =>
    match splitLines rest with
    | [] => [[c]]
    | h :: t => if c = '\n' then [] :: h :: t else (c :: h) :: t

/-- The Treatment a Specification (CDS) text assigns to an Element identifier,
read off the CDS line format the system uses throughout
(`- ELEM_XX: <treatment>`): the text after the first line that starts with
`- <elemId>:`.  This is the spec-side notion (spec section 3, "a mapping from
every Element identifier to a Treatment") used to state the inheritance and
uniformity claims against the code's behaviour. -/
def specTreatment (cds elemId : List Char) : Option (List Char) :=
  (splitLines cds).findSome? fun line =>
    let l := trimL line
    let pre := ("- ".data) ++ elemId ++ (":".data)
    if pre.isPrefixOf l then some (trimL (l.drop pre.length)) else none

/-- Claim C1, counterexample: `_ai_update_design_spec` returns whatever the
model produces, with no programmatic enforcement of inheritance.  With a model
that drops an element, the feedback does not mention `ELEM_01`, the prior
Specification assigns it a Treatment, and the returned Specification does not
— so the returned Treatment is not byte-for-byte equal to the prior one. -/
theorem refine_inheritance_counterexample :
    occurs ("ELEM_01".data) ("haz las paredes mas oscuras".data) = false ∧
    specTreatment
        (ai_update_design_spec
          (fun _ => ("CAMBIAR:\n- ELEM_02: paredes RAL 9005".data))
          ("ELEM_01: Piscina\nELEM_02: Paredes estuco".data)
          ("CAMBIAR:\n- ELEM_02: paredes RAL 7035\nMANTENER SIN CAMBIOS:\n- ELEM_01: piscina en su forma actual".data)
          ("haz las paredes mas oscuras".data))
        ("ELEM_01".data)
      ≠ specTreatment
          ("CAMBIAR:\n- ELEM_02: paredes RAL 7035\nMANTENER SIN CAMBIOS:\n- ELEM_01: piscina en su forma actual".data)
          ("ELEM_01".data) := by
  constructor
  · decide
  · decide

/-- Claim C1 (amended): the refine operation passes the prior Specification
together with the verbatim inheritance instruction (rule 4 of the prompt:
elements not mentioned by the user inherit their Treatment exactly) to the
model, and returns the model response unmodified; byte-for-byte inheritance of
untouched Treatments is requested from the model but not enforced by the
code, so it holds only when the model complies. -/
theorem refine_inheritance_amended (model : List Char → List Char)
    (inventory current_cds user_feedback : List Char) :
    ai_update_design_spec model inventory current_cds user_feedback
      = model (updateSpecPrompt inventory current_cds user_feedback) ∧
    (∃ a b, updateSpecPrompt inventory current_cds user_feedback
      = a ++ inheritRuleText ++ b) ∧
    (∃ a b, updateSpecPrompt inventory current_cds user_feedback
      = a ++ current_cds ++ b) := by
  refine ⟨rfl,
    ⟨upSegA ++ inventory ++ upSegB ++ current_cds ++ upSegC ++ user_feedback ++ upSegD1,
     upSegD2 ++ uniformRuleText ++ upSegD3, ?_⟩,
    ⟨upSegA ++ inventory ++ upSegB,
     upSegC ++ user_feedback ++ upSegD1 ++ inheritRuleText ++ upSegD2
       ++ uniformRuleText ++ upSegD3, ?_⟩⟩ <;>
    simp [updateSpecPrompt, List.append_assoc]

/-- Claim C4, counterexample: with feedback that targets only the ground-floor
member (`ELEM_01`) of the repeated wall group `ELEM_01`/`ELEM_02` (same
surface type on two floors, identically treated in the prior Specification)
and a model that changes only that member, the returned Specification assigns
the two group members different Treatments — uniformity propagation is not
enforced by the code. -/
theorem refine_uniformity_counterexample :
    occurs ("ELEM_01".data) ("pinta la planta baja ELEM_01 de gris oscuro".data) = true ∧
    occurs ("ELEM_02".data) ("pinta la planta baja ELEM_01 de gris oscuro".data) = false ∧
    specTreatment ("CAMBIAR:\n- ELEM_01: RAL 9010\n- ELEM_02: RAL 9010".data) ("ELEM_01".data)
      = specTreatment ("CAMBIAR:\n- ELEM_01: RAL 9010\n- ELEM_02: RAL 9010".data) ("ELEM_02".data) ∧
    specTreatment
        (ai_update_design_spec
          (fun _ => ("CAMBIAR:\n- ELEM_01: RAL 7016\n- ELEM_02: RAL 9010".data))
          ("ELEM_01: Paredes estuco PLANTA BAJA\nELEM_02: Paredes estuco PLANTA ALTA".data)
          ("CAMBIAR:\n- ELEM_01: RAL 9010\n- ELEM_02: RAL 9010".data)
          ("pinta la planta baja ELEM_01 de gris oscuro".data))
        ("ELEM_01".data)
      ≠ specTreatment
          (ai_update_design_spec
            (fun _ => ("CAMBIAR:\n- ELEM_01: RAL 7016\n- ELEM_02: RAL 9010".data))
            ("ELEM_01: Paredes estuco PLANTA BAJA\nELEM_02: Paredes estuco PLANTA ALTA".data)
            ("CAMBIAR:\n- ELEM_01: RAL 9010\n- ELEM_02: RAL 9010".data)
            ("pinta la planta baja ELEM_01 de gris oscuro".data))
          ("ELEM_02".data) := by
  refine ⟨by decide, by decide, by decide, by decide⟩

/-- Claim C4 (amended): the refine operation passes the user feedback together
with the verbatim uniformity instruction (rule 7 of the prompt: a change
requested for one surface is applied to all floors unless explicitly scoped)
to the model and returns the model response unmodified; identical Treatment
parameters across the members of a repeated structural group are requested
from the model but not enforced by the code. -/
theorem refine_uniformity_amended (model : List Char → List Char)
    (inventory current_cds user_feedback : List Char) :
    ai_update_design_spec model inventory current_cds user_feedback
      = model (updateSpecPrompt inventory current_cds user_feedback) ∧
    (∃ a b, updateSpecPrompt inventory current_cds user_feedback
      = a ++ uniformRuleText ++ b) ∧
    (∃ a b, updateSpecPrompt inventory current_cds user_feedback
      = a ++ user_feedback ++ b) := by
  refine ⟨rfl,
    ⟨upSegA ++ inventory ++ upSegB ++ current_cds ++ upSegC ++ user_feedback
       ++ upSegD1 ++ inheritRuleText ++ upSegD2, upSegD3, ?_⟩,
    ⟨upSegA ++ inventory ++ upSegB ++ current_cds ++ upSegC,
     upSegD1 ++ inheritRuleText ++ upSegD2 ++ uniformRuleText ++ upSegD3, ?_⟩⟩ <;>
    simp [updateSpecPrompt, List.append_assoc]

/-! ## Image Generation Orchestrator — fan-out aggregation
(`analyze_and_propose`, src/app/tools.py 695-713)

The three generation tasks are issued with `asyncio.gather(*tasks,
return_exceptions=True)`: each per-item outcome is either the returned text or
the captured exception, so the outcome list is the `results` input (one
`Except` per alternative, in issue order).  The aggregation loop (lines
701-713) is embedded directly, including the `Local file.*?`...`` regex used
to pull the saved path out of a success message. -/

def btick : Char := Char.ofNat 96

/-- After an opening backtick: the lazy `(.+?)` capture — at least one
character, up to the next backtick. -/
def captureBetween (cs : List Char) : Option (List Char) :=
  match cs with
  | [] => none
  | c0 :: rest => (breakOn [btick] rest).map (fun pr => c0 :: pr.1)

/-- Within one line: lazy `.*?` to the first backtick, then the capture (if
the capture fails there, no later opening on the line can succeed, since
failure means no further backtick follows). -/
def findTickCapture (line : List Char) : Option (List Char) :=
  match breakOn [btick] line with
  | none => none
  | some pr => captureBetween pr.2

/-- `re.search(r"Local file.*?`(.+?)`", result)`: occurrences of the literal
left to right; `.` does not cross a newline, so the rest of the match stays on
the occurrence's line.  Fuel is `length + 1`, which the recursion (strictly
shrinking) never exhausts. -/
def reSearchLocalFileAux : Nat → List Char → Option (List Char)
  | 0, _ => none
  | Nat.succ fuel, cs =>
    match breakOn ("Local file".data) cs with
    | none => none
    | some pr =>
      match findTickCapture (pr.2.takeWhile (fun c => decide (c ≠ '\n'))) with
      | some cap => some cap
      | none => reSearchLocalFileAux fuel pr.2

def reSearchLocalFile (cs : List Char) : Option (List Char) :=
  reSearchLocalFileAux (cs.length + 1) cs

/-- One entry of `image_status` (lines 704-710): letter `chr(65 + idx)`,
error entries carry the captured exception text. -/
def imageStatusEntry (idx : Nat) (r : Except (List Char) (List Char)) : List Char :=
  match r with
  | .error e =>
    ("**Imagen ".data) ++ [Char.ofNat (65 + idx)] ++ ("**: ❌ Error - ".data) ++ e
  | .ok _ =>
    ("**Imagen ".data) ++ [Char.ofNat (65 + idx)] ++ ("**: ✅ Generada".data)

/-- One entry of `generated_paths`: `None` for a captured failure, otherwise
`m.group(1) if m else None` for the path regex. -/
def generatedPathEntry (r : Except (List Char) (List Char)) : Option (List Char) :=
  match r with
  | .error _ => none
  | .ok text => reSearchLocalFile text

/-- The whole aggregation loop over the gathered results (lines 701-713). -/
def gatherImageResults (results : List (Except (List Char) (List Char))) :
    List (List Char) × List (Option (List Char)) :=
  (results.enum.map (fun p => imageStatusEntry p.1 p.2),
   results.map generatedPathEntry)

def isErrResult (r : Except (List Char) (List Char)) : Bool :=
  match r with
  | .error _ => true
  | .ok _ => false

theorem gather_status_getElem (results : List (Except (List Char) (List Char))) (i : Nat) :
    (gatherImageResults results).1[i]? = (results[i]?).map (imageStatusEntry i) := by
  simp only [gatherImageResults, List.getElem?_map, List.getElem?_enum]
  cases results[i]? <;> rfl

/-- Claim C5: with 3 concurrently issued generation calls of which exactly 1
raises, the aggregation yields 3 per-alternative entries — the 2 successes
reported as generated, the 1 captured failure attributed to its alternative
letter (`chr(65+idx)`) with the exception text — and the loop is total (the
exception was already captured by `gather(..., return_exceptions=True)`, so
nothing propagates to abort the siblings). -/
theorem analyze_fanout_resilience (results : List (Except (List Char) (List Char)))
    (h3 : results.length = 3) (h1 : results.countP isErrResult = 1) :
    (gatherImageResults results).1.length = 3 ∧
    (gatherImageResults results).2.length = 3 ∧
    results.countP (fun r => !(isErrResult r)) = 2 ∧
    (∀ i e, results[i]? = some (Except.error e) →
      (gatherImageResults results).1[i]? =
        some (("**Imagen ".data) ++ [Char.ofNat (65 + i)] ++ ("**: ❌ Error - ".data) ++ e)) ∧
    (∀ i t, results[i]? = some (Except.ok t) →
      (gatherImageResults results).1[i]? =
        some (("**Imagen ".data) ++ [Char.ofNat (65 + i)] ++ ("**: ✅ Generada".data))) := by
  refine ⟨?_, ?_, ?_, ?_, ?_⟩
  · simp [gatherImageResults, h3]
  · simp [gatherImageResults, h3]
  · have hsum := List.length_eq_countP_add_countP isErrResult results
    simp only [decide_not, Bool.decide_eq_true] at hsum
    rw [h3, h1] at hsum
    omega
  · intro i e he
    rw [gather_status_getElem, he]
    rfl
  · intro i t ht
    rw [gather_status_getElem, ht]
    rfl

/-- Witness for C5: alternative B failed with "boom", A and C succeeded. -/
theorem analyze_fanout_resilience_witness :
    (gatherImageResults
      [Except.ok ("ok0".data), Except.error ("boom".data), Except.ok ("ok2".data)]).1.length = 3 ∧
    (gatherImageResults
      [Except.ok ("ok0".data), Except.error ("boom".data), Except.ok ("ok2".data)]).1[1]? =
      some (("**Imagen ".data) ++ [Char.ofNat (65 + 1)] ++ ("**: ❌ Error - ".data)
        ++ ("boom".data)) ∧
    (gatherImageResults
      [Except.ok ("ok0".data), Except.error ("boom".data), Except.ok ("ok2".data)]).1[0]? =
      some (("**Imagen ".data) ++ [Char.ofNat (65 + 0)] ++ ("**: ✅ Generada".data)) :=
  ⟨(analyze_fanout_resilience
      [Except.ok ("ok0".data), Except.error ("boom".data), Except.ok ("ok2".data)]
      rfl (by decide)).1,
   (analyze_fanout_resilience
      [Except.ok ("ok0".data), Except.error ("boom".data), Except.ok ("ok2".data)]
      rfl (by decide)).2.2.2.1 1 ("boom".data) rfl,
   (analyze_fanout_resilience
      [Except.ok ("ok0".data), Except.error ("boom".data), Except.ok ("ok2".data)]
      rfl (by decide)).2.2.2.2 0 ("ok0".data) rfl⟩

/-! ## Phase 2 entry point (`refine_and_generate`, src/app/tools.py 759-828)

The tool context's state dict is embedded as a record whose fields default to
the `state.get(...)` defaults (`""` for the strings, `[]` for the image list,
`None` for `last_uploaded_image`, which has no default in the source).  The
three external calls are oracles: `updateModel` is the model call inside
`_ai_update_design_spec`, `refineModel` the one inside
`_ai_create_refined_image_prompt`, and `genImage` is `_generate_image`
(returning its message or the raised exception's text, plus the state as that
call leaves it, since `_generate_image` also writes bookkeeping keys). -/

structure SessionState where
  element_inventory : List Char := []
  design_alternatives : List Char := []
  current_cds : List Char := []
  refined_plan : List Char := []
  workflow_phase : List Char := []
  uploaded_images : List (List Char) := []
  last_uploaded_image : Option (List Char) := none

/-- The cold-start message (lines 783-786, two adjacent literals). -/
def noInventoryMsg : List Char :=
  ("Error: No hay inventario previo. "
    ++ "Primero sube una imagen para que pueda analizarla.").data

def refine_and_generate (user_feedback : List Char) (st0 : SessionState)
    (updateModel : List Char → List Char)
    (refineModel : List Char → List Char → List Char)
    (genImage : List Char → Option (List Char) → SessionState →
      Except (List Char) (List Char) × SessionState) :
    List Char × SessionState :=
  let inventory := st0.element_inventory
  let alternatives := st0.design_alternatives
  let cds0 := st0.current_cds
  if inventory = [] then (noInventoryMsg, st0)
  else
    let current_cds := if cds0 = [] then alternatives else cds0
    let refined := ai_update_design_spec updateModel inventory current_cds user_feedback
    let st1 := { st0 with current_cds := refined, refined_plan := refined,
                          workflow_phase := "refined".data }
    let image_prompt := ai_create_refined_image_prompt refineModel refined inventory
    let image_path :=
      match st1.uploaded_images with
      | p :: _ => some p
      | [] => st1.last_uploaded_image
    let gen := genImage image_prompt image_path st1
    let image_status :=
      match gen.1 with
      | .ok _ => "**Imagen refinada**: ✅ Generada".data
      | .error e => ("**Imagen refinada**: ❌ Error - ".data) ++ e
    (refined ++ ("\n\n---\n\n## 📸 Imagen Refinada\n\n".data) ++ image_status
      ++ ("\n\n**Revisa la pestaña Artifacts para ver la imagen.**\n\n"
          ++ "¿Te gusta el resultado? Puedo:\n"
          ++ "- Ajustar más colores o detalles\n"
          ++ "- Generar la lista de compra con materiales y herramientas").data,
     gen.2)

/-- Claim C8: with no stored element inventory, `refine_and_generate` returns
the corrective "no prior analysis" message, performs no specification update
and no image generation (the result does not depend on any of the three
oracles), and leaves the session state unchanged. -/
theorem refine_cold_start (user_feedback : List Char) (st : SessionState)
    (updateModel : List Char → List Char)
    (refineModel : List Char → List Char → List Char)
    (genImage : List Char → Option (List Char) → SessionState →
      Except (List Char) (List Char) × SessionState)
    (h : st.element_inventory = []) :
    refine_and_generate user_feedback st updateModel refineModel genImage =
      (noInventoryMsg, st) := by
  simp [refine_and_generate, h]

/-- Witness for C8: the empty session state, arbitrary concrete oracles. -/
theorem refine_cold_start_witness :
    refine_and_generate ("mas oscuro".data) {} (fun p => p) (fun a _ => a)
      (fun _ _ s => (Except.error [], s)) = (noInventoryMsg, {}) :=
  refine_cold_start ("mas oscuro".data) {} (fun p => p) (fun a _ => a)
    (fun _ _ s => (Except.error [], s)) rfl

/-! ## Hierarchical Memory Propagator (src/app/memory_store.py)

Firestore is embedded as unavailable (its failure path is the spec's
local-fallback contract, section 6: "falls back transparently to a local keyed
file store"), so every operation runs the local branch.  The local directory
of JSON files is the `MemStore` record: one document per project id and one
per `(project, section)` pair, in creation order (as `Path.glob` enumerates
deterministically for a fixed directory state).  The glob
`{project_id}__*.json` is the filter on the section key's project component
(faithful whenever project ids contain no `__`, which the overview-rebuild
claims do not depend on). -/

/-- JSON-like value stored in a memory document (string fields and the nested
`sections_overview` object are the shapes this module produces). -/
inductive MVal where
  | str : List Char → MVal
  | obj : List (List Char × MVal) → MVal

/-- A memory document: a JSON object / Python dict. -/
abbrev Doc : Type := List (List Char × MVal)

/-- Lazy option alternative (`optOr a b` is `a` unless it is `none`). -/
def optOr {α : Type} : Option α → Option α → Option α
  | some v, _ => some v
  | none, o => o

theorem optOr_none_right {α : Type} (a : Option α) : optOr a none = a := by
  cases a <;> rfl

theorem optOr_self_left {α : Type} (a b : Option α) :
    optOr a (optOr a b) = optOr a b := by
  cases a <;> rfl

theorem alGet_append {κ ν : Type} [DecidableEq κ] (l1 l2 : List (κ × ν)) (k : κ) :
    alGet (l1 ++ l2) k = optOr (alGet l1 k) (alGet l2 k) := by
  induction l1 with
  | nil => rfl
  | cons p t ih =>
    by_cases h : p.1 = k
    · simp [alGet, h, optOr]
    · simp [alGet, h, ih]

theorem alGet_eq_none {κ ν : Type} [DecidableEq κ] {l : List (κ × ν)} {k : κ}
    (h : alHas l k = false) : alGet l k = none := by
  induction l with
  | nil => rfl
  | cons p t ih =>
    rw [alHas, List.any_cons, Bool.or_eq_false_iff] at h
    obtain ⟨h1, h2⟩ := h
    rw [decide_eq_false_iff_not] at h1
    rw [alGet, if_neg h1]
    exact ih h2

theorem not_key_of_alHas_false {κ ν : Type} [DecidableEq κ] {l : List (κ × ν)} {k : κ}
    (h : alHas l k = false) : ∀ p ∈ l, p.1 ≠ k := by
  intro p hp hk
  have ht : alHas l k = true := by
    rw [alHas, List.any_eq_true]
    exact ⟨p, hp, by simp [hk]⟩
  rw [ht] at h
  cases h

theorem alGet_map_set {κ ν : Type} [DecidableEq κ] (l : List (κ × ν)) (k : κ) (v : ν)
    (k2 : κ) :
    alGet (l.map (fun p => if p.1 = k then (k, v) else p)) k2 =
      if k2 = k then (if alHas l k then some v else none) else alGet l k2 := by
  induction l with
  | nil => by_cases h : k2 = k <;> simp [alGet, alHas, h]
  | cons p t ih =>
    by_cases hp : p.1 = k
    · by_cases hk : k2 = k
      · subst hk
        simp [alGet, alHas, List.any_cons, hp]
      · simp [alGet, alHas, List.any_cons, hp, hk, Ne.symm (by simpa [hp] using hk), ih]
    · by_cases hk : k2 = k
      · subst hk
        simp only [List.map_cons, if_neg hp, alGet, if_neg hp, ih, if_pos rfl]
        rw [alHas, alHas, List.any_cons, decide_eq_false hp, Bool.false_or]
      · simp [alGet, hp, hk, ih]

theorem alGet_alSet {κ ν : Type} [DecidableEq κ] (l : List (κ × ν)) (k : κ) (v : ν)
    (k2 : κ) :
    alGet (alSet l k v) k2 = if k2 = k then some v else alGet l k2 := by
  rw [alSet]
  by_cases hhas : alHas l k
  · rw [if_pos hhas, alGet_map_set]
    by_cases hk : k2 = k <;> simp [hk, hhas]
  · rw [if_neg hhas, alGet_append]
    rw [Bool.not_eq_true] at hhas
    by_cases hk : k2 = k
    · subst hk
      rw [alGet_eq_none hhas]
      simp [alGet, optOr]
    · rw [if_neg hk]
      rw [show alGet [(k, v)] k2 = none from by simp [alGet, Ne.symm hk]]
      exact optOr_none_right _

theorem alHas_of_alGet {κ ν : Type} [DecidableEq κ] {l : List (κ × ν)} {k : κ} {v : ν}
    (h : alGet l k = some v) : alHas l k = true := by
  induction l with
  | nil => cases h
  | cons p t ih =>
    rw [alGet] at h
    by_cases hp : p.1 = k
    · rw [alHas, List.any_cons]
      simp [hp]
    · rw [if_neg hp] at h
      rw [alHas, List.any_cons, decide_eq_false hp, Bool.false_or]
      exact ih h

theorem alHas_alSet_self {κ ν : Type} [DecidableEq κ] (l : List (κ × ν)) (k : κ) (v : ν) :
    alHas (alSet l k v) k = true := by
  have h := alGet_alSet l k v k
  rw [if_pos rfl] at h
  exact alHas_of_alGet h

theorem alSet_mem_key {κ ν : Type} [DecidableEq κ] {l : List (κ × ν)} {k : κ} {v : ν}
    {p : κ × ν} (hp : p ∈ alSet l k v) (hk : p.1 = k) : p.2 = v := by
  rw [alSet] at hp
  by_cases hhas : alHas l k
  · rw [if_pos hhas, List.mem_map] at hp
    obtain ⟨q, hq, rfl⟩ := hp
    by_cases hq1 : q.1 = k
    · simp [hq1]
    · rw [if_neg hq1] at hk
      exact absurd hk hq1
  · rw [if_neg hhas, List.mem_append] at hp
    rw [Bool.not_eq_true] at hhas
    cases hp with
    | inl h => exact absurd hk (not_key_of_alHas_false hhas p h)
    | inr h =>
      rw [List.mem_singleton] at h
      rw [h]

/-- Last-binding lookup in an update dict (`d.update(x)` ends with the last
value `x` assigns to a key). -/
def alGetLast {κ ν : Type} [DecidableEq κ] (x : List (κ × ν)) (k : κ) : Option ν :=
  alGet x.reverse k

theorem alGet_dictUpdate {κ ν : Type} [DecidableEq κ] (d x : List (κ × ν)) (k : κ) :
    alGet (dictUpdate d x) k = optOr (alGetLast x k) (alGet d k) := by
  induction x generalizing d with
  | nil => rfl
  | cons p x ih =>
    rw [show dictUpdate d (p :: x) = dictUpdate (alSet d p.1 p.2) x from rfl, ih,
      alGet_alSet]
    rw [show alGetLast (p :: x) k = optOr (alGetLast x k) (alGet [p] k) from by
      rw [alGetLast, List.reverse_cons, alGet_append]
      rfl]
    cases hL : alGetLast x k with
    | some w => rfl
    | none =>
      by_cases hk : k = p.1
      · subst hk
        simp [alGet, optOr]
      · simp [alGet, optOr, hk, Ne.symm hk]

theorem alGet_dictUpdate_idem {κ ν : Type} [DecidableEq κ] (d x : List (κ × ν)) (k : κ) :
    alGet (dictUpdate (dictUpdate d x) x) k = alGet (dictUpdate d x) k := by
  rw [alGet_dictUpdate, alGet_dictUpdate]
  exact optOr_self_left _ _

/-- The overview entry built for one section document
(`memory_store.py` 193-196): `type` defaulting to `"otro"`, `style_summary`
defaulting to `""`. -/
def sectionEntry (doc : Doc) : MVal :=
  MVal.obj [("type".data, (alGet doc ("type".data)).getD (MVal.str ("otro".data))),
            ("style_summary".data, (alGet doc ("style_summary".data)).getD (MVal.str []))]

/-- The local memory directory: project documents and section documents. -/
structure MemStore where
  projects : List (List Char × Doc)
  sections : List ((List Char × List Char) × Doc)

/-- `get_project_memory` (local branch): read the project file, `{}` if
missing. -/
def get_project_memory (store : MemStore) (pid : List Char) : Doc :=
  (alGet store.projects pid).getD []

/-- `save_project_memory` (local branch): read, `existing.update(data)`,
write back. -/
def save_project_memory (store : MemStore) (pid : List Char) (data : Doc) : MemStore :=
  { store with
    projects := alSet store.projects pid (dictUpdate (get_project_memory store pid) data) }

/-- `get_section_memory` (local branch). -/
def get_section_memory (store : MemStore) (pid sid : List Char) : Doc :=
  (alGet store.sections (pid, sid)).getD []

/-- The rebuilt overview (`memory_store.py` 189-196): one entry per section
file of the project, in file order. -/
def overviewList (secs : List ((List Char × List Char) × Doc)) (pid : List Char) :
    List (List Char × MVal) :=
  secs.filterMap fun e => if e.1.1 = pid then some (e.1.2, sectionEntry e.2) else none

/-- `_update_project_sections_overview`: full rebuild from all known sections,
then merged into the project document under `sections_overview`. -/
def update_project_sections_overview (store : MemStore) (pid : List Char) : MemStore :=
  save_project_memory store pid
    [("sections_overview".data, MVal.obj (overviewList store.sections pid))]

/-- `save_section_memory`: merge the section document, then unconditionally
recompute the parent project's overview. -/
def save_section_memory (store : MemStore) (pid sid : List Char) (data : Doc) : MemStore :=
  let store1 := { store with
    sections := alSet store.sections (pid, sid)
      (dictUpdate (get_section_memory store pid sid) data) }
  update_project_sections_overview store1 pid

/-- The `sections_overview` field of a project document. -/
def sections_overview_of (store : MemStore) (pid : List Char) : Option MVal :=
  alGet (get_project_memory store pid) ("sections_overview".data)

theorem sections_overview_after_update (store : MemStore) (pid : List Char) :
    sections_overview_of (update_project_sections_overview store pid) pid
      = some (MVal.obj (overviewList store.sections pid)) := by
  unfold sections_overview_of update_project_sections_overview save_project_memory
    get_project_memory
  simp only [alGet_alSet, eq_self_iff_true, if_true, Option.getD_some]
  rw [alGet_dictUpdate]
  simp [alGetLast, alGet, optOr]

theorem sections_overview_after_save (store : MemStore) (pid sid : List Char) (data : Doc) :
    sections_overview_of (save_section_memory store pid sid data) pid
      = some (MVal.obj (overviewList (alSet store.sections (pid, sid)
          (dictUpdate (get_section_memory store pid sid) data)) pid)) :=
  sections_overview_after_update
    { store with
      sections := alSet store.sections (pid, sid)
        (dictUpdate (get_section_memory store pid sid) data) } pid

theorem overviewList_map_set (secs : List ((List Char × List Char) × Doc))
    (key : List Char × List Char) (dA : Doc) (pid : List Char)
    (hent : ∀ p ∈ secs, p.1 = key → sectionEntry p.2 = sectionEntry dA) :
    overviewList (secs.map (fun p => if p.1 = key then (key, dA) else p)) pid
      = overviewList secs pid := by
  induction secs with
  | nil => rfl
  | cons p t ih =>
    obtain ⟨pk, pd⟩ := p
    have hT : ∀ q ∈ t, q.1 = key → sectionEntry q.2 = sectionEntry dA :=
      fun q hq => hent q (List.mem_cons_of_mem (pk, pd) hq)
    have ih2 := ih hT
    by_cases hp : pk = key
    · subst hp
      have hpe := hent (pk, pd) (List.mem_cons_self (pk, pd) t) rfl
      simp only [overviewList, List.map_cons, List.filterMap_cons] at ih2 ⊢
      simp [hpe, ih2]
    · simp only [overviewList, List.map_cons, List.filterMap_cons] at ih2 ⊢
      simp [hp, ih2]

theorem overviewList_alSet_congr (secs : List ((List Char × List Char) × Doc))
    (key : List Char × List Char) (dA : Doc) (pid : List Char)
    (hhas : alHas secs key = true)
    (hent : ∀ p ∈ secs, p.1 = key → sectionEntry p.2 = sectionEntry dA) :
    overviewList (alSet secs key dA) pid = overviewList secs pid := by
  rw [alSet, if_pos hhas]
  exact overviewList_map_set secs key dA pid hent

theorem sectionEntry_dictUpdate_idem (d x : Doc) :
    sectionEntry (dictUpdate (dictUpdate d x) x) = sectionEntry (dictUpdate d x) := by
  unfold sectionEntry
  rw [alGet_dictUpdate_idem, alGet_dictUpdate_idem]

/-- Claim C9: every `save_section_memory` stores as the project's
`sections_overview` the full rebuild from all known sections of that project
(first conjunct: the stored overview is exactly `overviewList` of the store's
section documents, not an incremental patch), and saving the same project,
section and data twice in a row yields the same `sections_overview` both
times. -/
theorem save_section_memory_idem (store : MemStore) (pid sid : List Char) (data : Doc) :
    sections_overview_of (save_section_memory store pid sid data) pid
      = some (MVal.obj (overviewList (save_section_memory store pid sid data).sections pid)) ∧
    sections_overview_of
        (save_section_memory (save_section_memory store pid sid data) pid sid data) pid
      = sections_overview_of (save_section_memory store pid sid data) pid := by
  have hget : get_section_memory (save_section_memory store pid sid data) pid sid
      = dictUpdate (get_section_memory store pid sid) data := by
    unfold save_section_memory update_project_sections_overview save_project_memory
      get_section_memory
    simp only [alGet_alSet, eq_self_iff_true, if_true, Option.getD_some]
  constructor
  · exact sections_overview_after_save store pid sid data
  · rw [sections_overview_after_save, sections_overview_after_save, hget]
    rw [show (save_section_memory store pid sid data).sections
        = alSet store.sections (pid, sid)
            (dictUpdate (get_section_memory store pid sid) data) from rfl]
    rw [overviewList_alSet_congr _ (pid, sid)
      (dictUpdate (dictUpdate (get_section_memory store pid sid) data) data) pid
      (alHas_alSet_self _ _ _)
      (fun p hp hpk => by
        rw [alSet_mem_key hp hpk]
        exact (sectionEntry_dictUpdate_idem (get_section_memory store pid sid) data).symm)]
